import Mathlib

/-!
Verification of the StatelyDB Python SDK client core against its
natural-language specification.

The development is a shallow embedding of the relevant parts of
`statelydb/src/auth.py`, `statelydb/src/transaction.py`,
`statelydb/src/sync.py` and `statelydb/src/client.py`:

* pure Python functions become Lean functions;
* `datetime` values become integers (seconds);
* raised Python exceptions become `Except` / explicit error fields;
* the cooperative-concurrency behaviour of the token-refresh dedupe
  (`_dedupe` in `auth.py`) becomes an explicit event-trace semantics in
  which each atomic (await-free) section of the Python coroutine is one
  transition.
-/

namespace StatelySDK

/-- The gRPC status codes the SDK distinguishes (grpclib `Status` values
used by `errors.py` and `auth.py`). -/
inductive Status
  | OK
  | UNKNOWN
  | UNAVAILABLE
  | INTERNAL
  | UNAUTHENTICATED
  | PERMISSION_DENIED
  | NOT_FOUND
  | UNIMPLEMENTED
  | INVALID_ARGUMENT
  deriving DecidableEq, Repr

/-- `StatelyError` from `errors.py`: a stately code string, a gRPC status
and a message. -/
structure StatelyError where
  stately_code : String
  code : Status
  message : String
  deriving DecidableEq, Repr

/-- `auth.py` line 25: the list `NON_RETRYABLE_ERRORS`. -/
def NON_RETRYABLE_ERRORS : List Status :=
  [Status.UNAUTHENTICATED,
   Status.PERMISSION_DENIED,
   Status.NOT_FOUND,
   Status.UNIMPLEMENTED,
   Status.INVALID_ARGUMENT]

/-- `auth.py` line 32: `RETRY_ATTEMPTS = 10`. -/
def RETRY_ATTEMPTS : Nat := 10

/-- `auth.py` `TokenResult`: result from a token fetch operation.
Times are modelled in whole seconds. -/
structure TokenResult where
  token : String
  expires_in_secs : Int
  deriving DecidableEq, Repr

/-- `auth.py` `TokenState`: persistent state for the token provider.
`expires_at` is an absolute timestamp in seconds. -/
structure TokenState where
  token : String
  expires_at : Int
  deriving DecidableEq, Repr

/-- `auth.py` lines 237-255, `backoff(attempt, base_retry_backoff_secs)`.
The call `random()` is made explicit as the argument `jitter` (a rational
in `[0,1)`): the function computes `2 ** attempt * jitter * base`. -/
def backoff (attempt : Nat) (base_retry_backoff_secs : Rat) (jitter : Rat) : Rat :=
  2 ^ attempt * jitter * base_retry_backoff_secs

/-- The body of `_refresh_token_impl` (`auth.py` lines 110-145) after the
awaited fetch has produced `token_result`, as a pure function of the
previous `token_state` and the current time `now`:

* `new_expires_at = now + expires_in_secs`;
* the state is replaced only when `token_state is None` or
  `new_expires_at > token_state.expires_at` (strict), otherwise the
  already-installed state is kept;
* the value returned to the caller is `token_state.token`, read from the
  state that is installed after this update.

The background `_schedule` task is not part of the returned value. -/
def refresh_token_impl (token_state : Option TokenState)
    (token_result : TokenResult) (now : Int) : TokenState × String :=
  let new_expires_at := now + token_result.expires_in_secs
  let st : TokenState :=
    match token_state with
    | none => ⟨token_result.token, new_expires_at⟩
    | some ts =>
        if new_expires_at > ts.expires_at then ⟨token_result.token, new_expires_at⟩
        else ts
  (st, st.token)

/-- Outcome of one attempt of the remote `GetAuthToken` call inside
`fetch_stately_access_token` (`auth.py` lines 212-225): either a
`TokenResult` or a raised `StatelyError`. -/
inductive FetchOutcome
  | ok (r : TokenResult)
  | err (e : StatelyError)
  deriving DecidableEq, Repr

/-- `auth.py` lines 228-232: the error constructed after the retry loop
(the code comment there says this point should be unreachable). -/
def exhausted_retry_error : StatelyError :=
  ⟨"Internal", Status.INTERNAL,
   "Exceeded max retry attempts but did not correctly propagate exception on final attempt."⟩

instance {ε α : Type} [DecidableEq ε] [DecidableEq α] : DecidableEq (Except ε α) :=
  fun x y =>
    match x, y with
    | .ok a, .ok b =>
        if h : a = b then .isTrue (by rw [h]) else .isFalse (by simp [h])
    | .error a, .error b =>
        if h : a = b then .isTrue (by rw [h]) else .isFalse (by simp [h])
    | .ok _, .error _ => .isFalse (by simp)
    | .error _, .ok _ => .isFalse (by simp)

/-- Observable run of `fetch_stately_access_token`: the surfaced result,
the number of attempts made against the remote service, and the sequence
of `asyncio.sleep` backoff waits performed between attempts. -/
structure FetchRun where
  result : Except StatelyError TokenResult
  attempts : Nat
  waits : List Rat
  deriving DecidableEq, Repr

/-- The `for i in range(RETRY_ATTEMPTS)` loop of
`fetch_stately_access_token` (`auth.py` lines 212-232), starting at
iteration `i` with `fuel` iterations remaining.  `outcomes j` is what the
remote call does on attempt `j`; `jitter j` is the `random()` sample used
by `backoff` before the retry that follows attempt `j`.  Running out of
fuel corresponds to falling through the loop, which raises the internal
`exhausted_retry_error`. -/
def fetch_loop (outcomes : Nat → FetchOutcome) (jitter : Nat → Rat)
    (base : Rat) : Nat → Nat → FetchRun
  | 0, _ => ⟨.error exhausted_retry_error, 0, []⟩
  | fuel + 1, i =>
    match outcomes i with
    | .ok r => ⟨.ok r, 1, []⟩
    | .err e =>
        if e.code ∈ NON_RETRYABLE_ERRORS ∨ i = RETRY_ATTEMPTS - 1 then
          ⟨.error e, 1, []⟩
        else
          let rest := fetch_loop outcomes jitter base fuel (i + 1)
          ⟨rest.result, rest.attempts + 1, backoff i base (jitter i) :: rest.waits⟩

/-- `fetch_stately_access_token` (`auth.py` lines 202-232): run the retry
loop from iteration 0 with the full `RETRY_ATTEMPTS` budget. -/
def fetch_stately_access_token (outcomes : Nat → FetchOutcome)
    (jitter : Nat → Rat) (base : Rat) : FetchRun :=
  fetch_loop outcomes jitter base RETRY_ATTEMPTS 0

/-! ## The `_dedupe` protocol (`auth.py` lines 176-193)

`_dedupe` wraps a task constructor.  The returned `_run` coroutine
executes `cached = cached or task()` with no await point in between, so
in the cooperative single-threaded asyncio model that line is one atomic
transition; afterwards the caller suspends on `await cached` and, when
the task settles, its `finally: cached = None` clears the slot.  We give
the protocol an event-trace semantics: an `arrive` event is one caller
reaching `_run` and executing its atomic section, a `complete` event is
the cached task settling with a token value, which resumes every joined
caller (each of whose `finally` blocks then clears `cached`). -/

/-- One scheduling event of the dedupe protocol. -/
inductive DedupeEvent
  | arrive (c : Nat)
  | complete (v : String)
  deriving DecidableEq, Repr

/-- State of the dedupe protocol: the `cached` task slot, the number of
tasks created so far (each created task performs exactly one call to the
`token_fetcher` collaborator inside `_refresh_token_impl`), the callers
currently awaiting the cached task, and the values delivered to callers
that have already resumed. -/
structure DedupeState where
  cached : Option Nat
  tasks_created : Nat
  joined : List (Nat × Nat)
  results : List (Nat × String)
  deriving DecidableEq, Repr

/-- Initial dedupe state: `cached = None`, no task yet. -/
def dedupe_init : DedupeState := ⟨none, 0, [], []⟩

/-- One transition of the dedupe protocol.  `arrive c`: caller `c` runs
`cached = cached or task()` atomically and joins the cached task.
`complete v`: the running task settles with value `v`; every joined
caller resumes with `v` and the `finally` blocks reset `cached` to
`None`. -/
def dedupe_step (s : DedupeState) : DedupeEvent → DedupeState
  | .arrive c =>
    match s.cached with
    | none =>
        { s with
          cached := some s.tasks_created
          tasks_created := s.tasks_created + 1
          joined := s.joined ++ [(c, s.tasks_created)] }
    | some t => { s with joined := s.joined ++ [(c, t)] }
  | .complete v =>
    { s with
      cached := none
      joined := []
      results := s.results ++ s.joined.map (fun p => (p.1, v)) }

/-- Run the dedupe protocol over a trace of events. -/
def dedupe_run (evs : List DedupeEvent) : DedupeState :=
  evs.foldl dedupe_step dedupe_init

/-! ## Transaction session (`transaction.py`) -/

/-- A decoded item, as produced by the external item-marshalling
collaborator (`type_mapper.unmarshal`): a logical type tag plus an opaque
payload. -/
structure StatelyItem where
  item_type : String
  data : String
  deriving DecidableEq, Repr

/-- `transaction.py` lines 38-63, `TransactionResult`: the items put
during the transaction and whether it committed.  The constructor
defaults are `puts = []`, `committed = False`. -/
structure TransactionResult where
  puts : List StatelyItem
  committed : Bool
  deriving DecidableEq, Repr

/-- `transaction.py` line 99, `Transaction.__init__`: the message-id
counter starts at `self._message_id = 1`. -/
def init_message_id : Nat := 1

/-- `transaction.py` lines 103-105, `Transaction._next_message_id`: the
counter is incremented first and the incremented value is returned. -/
def next_message_id (message_id : Nat) : Nat × Nat :=
  (message_id + 1, message_id + 1)

/-- The message ids carried by the first `n` requests sent on one
transaction session (the implicit begin of `__aenter__` being the first
send), starting from counter value `s`: every send calls
`_next_message_id`. -/
def send_ids : Nat → Nat → List Nat
  | _, 0 => []
  | s, n + 1 =>
    let (m, s2) := next_message_id s
    m :: send_ids s2 n

/-- The message ids of the first `n` requests of a fresh session. -/
def sent_message_ids (n : Nat) : List Nat :=
  send_ids init_message_id n

/-- Observable outcome of `Transaction.__aexit__` (`transaction.py`
lines 118-142): whether `_abort` was invoked, the final `self.result`,
and the exception (if any) that propagates to the caller of the
`async with` block. -/
structure TxnExitOutcome where
  abort_invoked : Bool
  result : Option TransactionResult
  raised : Option String
  deriving DecidableEq, Repr

/-- `Transaction.__aexit__` (`transaction.py` lines 118-142) as a pure
function.  `exc` is the exception raised by the body of the
`async with` block (`None` if it completed), `abort_outcome` is what
`self._abort()` does when invoked, `commit_outcome` what
`self._commit()` does.  Python semantics followed exactly:

* `exc` present: `_abort` runs inside `try ... finally`, the `finally`
  sets `self.result = TransactionResult(puts=[], committed=False)`
  whether or not `_abort` raised; if `_abort` raised, that exception
  propagates out of `__aexit__` (replacing the body exception as the
  propagating one, which survives only as implicit context); if `_abort`
  returned, `__aexit__` returns `False` and the body exception is
  re-raised;
* `exc` absent: `self.result = await self._commit()`; a `_commit`
  exception leaves `self.result` at its class default `None` and
  propagates. -/
def txn_aexit (exc : Option String) (abort_outcome : Except String Unit)
    (commit_outcome : Except String TransactionResult) : TxnExitOutcome :=
  match exc with
  | some e =>
    { abort_invoked := true
      result := some ⟨[], false⟩
      raised :=
        match abort_outcome with
        | .ok _ => some e
        | .error a => some a }
  | none =>
    match commit_outcome with
    | .ok r => ⟨false, some r, none⟩
    | .error c => ⟨false, none, some c⟩

/-- Python exceptions raised locally by the protocol layer
(`ValueError` / `TypeError` in `transaction.py` and `sync.py`); the spec
calls these ProtocolError. -/
inductive PyError
  | ValueError (msg : String)
  | TypeError (msg : String)
  deriving DecidableEq, Repr

/-- `transaction.py` line 28: the `ResponseField` literal type naming the
oneof variant expected in a `TransactionResponse`. -/
inductive ResponseField
  | get_results
  | put_ack
  | list_results
  | finished
  deriving DecidableEq, Repr

/-- A `TransactionListResponse` page (oneof `response` of the proto
message): a result page of items or the finished page with the list
token; `unset` models a message with no variant populated. -/
inductive TxnListPage
  | result (items : List StatelyItem)
  | finished (token_data : String)
  | unset
  deriving DecidableEq, Repr

/-- The payload carried in the populated oneof variant of a
`TransactionResponse` (proto message, oneof `result`). -/
inductive ResponsePayload
  | get_results (items : List StatelyItem)
  | put_ack (generated_ids : List (Option Nat))
  | list_results (page : TxnListPage)
  | finished (committed : Bool) (put_results : List StatelyItem)
  deriving DecidableEq, Repr

/-- The `WhichOneof` tag of a populated payload. -/
def payload_field : ResponsePayload → ResponseField
  | .get_results _ => .get_results
  | .put_ack _ => .put_ack
  | .list_results _ => .list_results
  | .finished _ _ => .finished

/-- A `TransactionResponse` proto message: its `message_id` and its
`result` oneof (`none` models `WhichOneof("result") is None`). -/
structure TransactionResponse where
  message_id : Nat
  result : Option ResponsePayload
  deriving DecidableEq, Repr

/-- `Transaction._expect_response` (`transaction.py` lines 504-529).
`resp` is what `recv_message` returned (`none` models a prematurely
ended stream).  The checks, in source order: a `None` response raises
`ValueError`; a `message_id` different from the request raises
`ValueError`; a `WhichOneof("result")` different from `expect_field`
raises `ValueError`.  The final `isinstance` check cannot fail in the
embedding because the payload type is determined by the populated
variant, as it is for the generated proto classes. -/
def expect_response (resp : Option TransactionResponse) (message_id : Nat)
    (expect_field : ResponseField) : Except PyError ResponsePayload :=
  match resp with
  | none => .error (.ValueError "Expected a response but got None")
  | some r =>
    if r.message_id ≠ message_id then
      .error (.ValueError "Expected message_id did not match the received message_id")
    else
      match r.result with
      | none =>
          .error (.ValueError "Expected field was not the populated variant")
      | some p =>
          if payload_field p ≠ expect_field then
            .error (.ValueError "Expected field was not the populated variant")
          else .ok p

/-! ## List / sync cursor (`sync.py`, `client.py`) -/

/-- `ListToken` (proto `list_token_pb2`): opaque continuation token;
only `token_data` is relevant here. -/
structure ListToken where
  token_data : String
  deriving DecidableEq, Repr

/-- A `SyncListResponse` result page (proto message): the three groups
`changed_items`, `deleted_items` (their key paths) and
`updated_item_keys_outside_list_window`. -/
structure SyncListResultPage where
  changed_items : List StatelyItem
  deleted_items : List String
  updated_item_keys_outside_list_window : List String
  deriving DecidableEq, Repr

/-- A `SyncListResponse` proto message, by its populated oneof
`response` variant; `unset` models `WhichOneof("response") is None`. -/
inductive SyncListResponse
  | reset
  | result (page : SyncListResultPage)
  | finished (token : ListToken)
  | unset
  deriving DecidableEq, Repr

/-- The `SyncResult` variants of `sync.py` lines 15-69: `SyncReset`,
`SyncChangedItem`, `SyncDeletedItem`,
`SyncUpdatedItemKeyOutsideListWindow`. -/
inductive SyncResult
  | SyncReset
  | SyncChangedItem (item : StatelyItem)
  | SyncDeletedItem (key_path : String)
  | SyncUpdatedItemKeyOutsideListWindow (key_path : String)
  deriving DecidableEq, Repr

/-- The events one result page flushes, in source order (`sync.py` lines
83-88): changed items, then deleted key paths, then updated keys outside
the list window, one event per element. -/
def sync_page_events (page : SyncListResultPage) : List SyncResult :=
  page.changed_items.map SyncResult.SyncChangedItem
    ++ page.deleted_items.map SyncResult.SyncDeletedItem
    ++ page.updated_item_keys_outside_list_window.map
        SyncResult.SyncUpdatedItemKeyOutsideListWindow

/-- Observable run of `handle_sync_response`: the events yielded to the
caller (in order), the token stored into the shared `TokenReceiver`,
whether the underlying stream was closed (`stream.__aexit__` called),
and the error raised (if any). -/
structure SyncRun where
  events : List SyncResult
  token : Option ListToken
  stream_closed : Bool
  error : Option PyError
  deriving DecidableEq, Repr

/-- `handle_sync_response` (`sync.py` lines 72-110) over the sequence of
messages the stream delivers.  Per message: `reset` yields one
`SyncReset`; `result` flushes the page groups in order changed, deleted,
outside-window; `finished` stores the token into the `TokenReceiver`,
closes the stream (`stream.__aexit__`) and returns, ignoring anything
after it; an unset variant raises `ValueError`.  A stream that ends
before any `finished` raises `ValueError`.  Both raises are `Exception`s
caught by the `except Exception` clause, which closes the stream and
re-raises, so every one of these exits closes the stream. -/
def handle_sync_response : List SyncListResponse → SyncRun
  | [] =>
      ⟨[], none, true,
       some (.ValueError "Expected finished to be set but it was never set")⟩
  | .reset :: rest =>
      let run := handle_sync_response rest
      { run with events := SyncResult.SyncReset :: run.events }
  | .result page :: rest =>
      let run := handle_sync_response rest
      { run with events := sync_page_events page ++ run.events }
  | .finished t :: _ => ⟨[], some t, true, none⟩
  | .unset :: _ =>
      ⟨[], none, true,
       some (.ValueError "Expected reset, result or finished to be set but all are unset")⟩

/-- Modelled from the spec: `list.py` (the `ListResult` cursor wrapper
returned by `sync_list` / `begin_list`, owner of the generator teardown)
is not under `src/`.  Spec section 4.4: on early break "the cursor must
close/abort the underlying stream on teardown so the server is not left
expecting further reads; this is a scoped-resource release guaranteed on
every exit path".  A caller that breaks after consuming `k` of the
available events therefore sees the `k` events, no error, and a closed
stream; a caller that iterates to the end sees the full run of
`handle_sync_response`. -/
def cursor_consume (responses : List SyncListResponse)
    (break_after : Option Nat) : SyncRun :=
  let full := handle_sync_response responses
  match break_after with
  | none => full
  | some k =>
      if k < full.events.length then ⟨full.events.take k, none, true, none⟩
      else full

/-! ## Point reads (`transaction.py` `Transaction.get`, `client.py`
`Client.get`) -/

/-- `Transaction.get` (`transaction.py` lines 180-214) after
`get_batch(key_path)` returned the unmarshalled list `resp`: an empty
list returns `None`; otherwise the first item is taken and a type-tag
mismatch with the requested `item_type` raises `ValueError`.  The
subsequent `isinstance` check cannot fail in the embedding because the
type mapper yields the class named by the item's tag. -/
def transaction_get (resp : List StatelyItem) (item_type : String) :
    Except PyError (Option StatelyItem) :=
  match resp with
  | [] => .ok none
  | item :: _ =>
    if item.item_type ≠ item_type then
      .error (.ValueError "Expected item type did not match the returned item type")
    else .ok (some item)

/-- `Client.get` (`client.py` lines 134-167): identical logic to
`Transaction.get`, over the list returned by the one-shot
`get_batch`. -/
def client_get (resp : List StatelyItem) (item_type : String) :
    Except PyError (Option StatelyItem) :=
  match resp with
  | [] => .ok none
  | item :: _ =>
    if item.item_type ≠ item_type then
      .error (.ValueError "Expected item type did not match the returned item type")
    else .ok (some item)

/-! ## Theorems -/

/-- C3 counterexample: with installed state `(old, expires 100)` and a
fetch returning `(new, 40s)` at time 50 (new expiry 90 ≤ 100), the value
returned to the immediate caller is the installed token `old`, not the
freshly fetched token `new` (and the installed state is kept); the claim
that the freshly fetched token value is still returned is false here. -/
theorem refresh_fresh_token_cex :
    (refresh_token_impl (some ⟨"old", 100⟩) ⟨"new", 40⟩ 50).2 ≠ "new" ∧
    (refresh_token_impl (some ⟨"old", 100⟩) ⟨"new", 40⟩ 50).2 = "old" ∧
    (refresh_token_impl (some ⟨"old", 100⟩) ⟨"new", 40⟩ 50).1 = ⟨"old", 100⟩ := by
  decide

/-- C3 (amended): when a refresh completes while the installed
TokenState has an expiry later than or equal to the newly computed one,
the installed state wins entirely: it is kept unchanged and its token
value (not the freshly fetched one) is returned to the immediate caller;
the state and the fresh token value are installed and returned only when
the new expiry is strictly later. -/
theorem refresh_expiry_tie_keeps_installed (ts : TokenState)
    (tr : TokenResult) (now : Int) :
    (now + tr.expires_in_secs ≤ ts.expires_at →
      refresh_token_impl (some ts) tr now = (ts, ts.token)) ∧
    (ts.expires_at < now + tr.expires_in_secs →
      refresh_token_impl (some ts) tr now =
        (⟨tr.token, now + tr.expires_in_secs⟩, tr.token)) := by
  constructor
  · intro h
    have hc : ¬ now + tr.expires_in_secs > ts.expires_at := by omega
    simp [refresh_token_impl, hc]
  · intro h
    have hc : now + tr.expires_in_secs > ts.expires_at := by omega
    simp [refresh_token_impl, hc]

/-- C3 witness: the amended theorem applied at the concrete input of the
counterexample. -/
theorem refresh_expiry_tie_keeps_installed_witness :
    (50 : Int) + 40 ≤ 100 ∧
    refresh_token_impl (some ⟨"old", 100⟩) ⟨"new", 40⟩ 50 = (⟨"old", 100⟩, "old") :=
  ⟨by decide,
   (refresh_expiry_tie_keeps_installed ⟨"old", 100⟩ ⟨"new", 40⟩ 50).1 (by decide)⟩

/-- One-step unfolding of `fetch_loop` for positive fuel. -/
lemma fetch_loop_succ (outcomes : Nat → FetchOutcome) (jitter : Nat → Rat)
    (base : Rat) (fuel i : Nat) :
    fetch_loop outcomes jitter base (fuel + 1) i =
      match outcomes i with
      | .ok r => ⟨.ok r, 1, []⟩
      | .err e =>
          if e.code ∈ NON_RETRYABLE_ERRORS ∨ i = RETRY_ATTEMPTS - 1 then
            ⟨.error e, 1, []⟩
          else
            ⟨(fetch_loop outcomes jitter base fuel (i + 1)).result,
             (fetch_loop outcomes jitter base fuel (i + 1)).attempts + 1,
             backoff i base (jitter i) ::
               (fetch_loop outcomes jitter base fuel (i + 1)).waits⟩ := rfl

/-- Shared helper: if every attempt raises a retryable error, the loop
body of `fetch_stately_access_token` starting at iteration `i` with
`fuel` remaining iterations (`i + fuel = RETRY_ATTEMPTS`) performs all
`fuel` remaining attempts, sleeps `backoff` between them, and re-raises
the error of the final attempt. -/
lemma fetch_loop_all_retryable (outcomes : Nat → FetchOutcome)
    (jitter : Nat → Rat) (base : Rat) (e : Nat → StatelyError)
    (hout : ∀ j, outcomes j = .err (e j))
    (hretry : ∀ j, (e j).code ∉ NON_RETRYABLE_ERRORS) :
    ∀ fuel i, 0 < fuel → i + fuel = RETRY_ATTEMPTS →
      fetch_loop outcomes jitter base fuel i =
        ⟨.error (e (RETRY_ATTEMPTS - 1)), fuel,
         (List.range' i (fuel - 1)).map (fun j => backoff j base (jitter j))⟩ := by
  intro fuel
  induction fuel with
  | zero => intro i hpos _; exact absurd hpos (by omega)
  | succ f ih =>
    intro i _ hsum
    match f, ih with
    | 0, _ =>
      have hi : i = RETRY_ATTEMPTS - 1 := by
        simp [RETRY_ATTEMPTS] at hsum ⊢; omega
      subst hi
      rw [fetch_loop_succ, hout (RETRY_ATTEMPTS - 1)]
      simp
    | f2 + 1, ih =>
      have hi : i ≠ RETRY_ATTEMPTS - 1 := by
        simp [RETRY_ATTEMPTS] at hsum ⊢; omega
      have hcond : ¬((e i).code ∈ NON_RETRYABLE_ERRORS ∨ i = RETRY_ATTEMPTS - 1) := by
        simp [hretry i, hi]
      have hrec := ih (i + 1) (by omega) (by omega)
      rw [fetch_loop_succ, hout i]
      simp only [if_neg hcond, hrec]
      simp [List.range'_succ]

/-- C4 counterexample: when every one of the 10 attempts fails with the
retryable error `(Unknown, UNKNOWN, boom)`, the surfaced error is that
underlying error itself, not the distinct internal exhausted-retry
error: the `raise` on the final attempt (`i == RETRY_ATTEMPTS - 1`)
re-raises the underlying error and the internal error after the loop is
never reached. -/
theorem fetch_exhausted_internal_cex :
    (fetch_stately_access_token
        (fun _ => .err ⟨"Unknown", .UNKNOWN, "boom"⟩) (fun _ => 0) 1).result
      = .error ⟨"Unknown", .UNKNOWN, "boom"⟩ ∧
    (fetch_stately_access_token
        (fun _ => .err ⟨"Unknown", .UNKNOWN, "boom"⟩) (fun _ => 0) 1).result
      ≠ .error exhausted_retry_error := by
  decide

/-- C4 (amended): if all 10 token-fetch attempts fail with retryable
errors, the fetcher surfaces the last underlying error itself, re-raised
on the final attempt; the internal exhausted-retry error after the loop
is unreachable and is never the surfaced error. -/
theorem fetch_exhausted_surfaces_underlying (outcomes : Nat → FetchOutcome)
    (jitter : Nat → Rat) (base : Rat) (e : Nat → StatelyError)
    (hout : ∀ j, outcomes j = .err (e j))
    (hretry : ∀ j, (e j).code ∉ NON_RETRYABLE_ERRORS) :
    (fetch_stately_access_token outcomes jitter base).result
      = .error (e (RETRY_ATTEMPTS - 1)) ∧
    (fetch_stately_access_token outcomes jitter base).attempts
      = RETRY_ATTEMPTS := by
  have h := fetch_loop_all_retryable outcomes jitter base e hout hretry
    RETRY_ATTEMPTS 0 (by simp [RETRY_ATTEMPTS]) (by simp)
  simp only [fetch_stately_access_token, h]
  exact ⟨trivial, trivial⟩

/-- C4 witness: the amended theorem applied to a constant retryable
failure. -/
theorem fetch_exhausted_surfaces_underlying_witness :
    (fetch_stately_access_token
        (fun _ => .err ⟨"Unavailable", .UNAVAILABLE, "down"⟩) (fun _ => 0) 2).result
      = .error ⟨"Unavailable", .UNAVAILABLE, "down"⟩ ∧
    (fetch_stately_access_token
        (fun _ => .err ⟨"Unavailable", .UNAVAILABLE, "down"⟩) (fun _ => 0) 2).attempts
      = RETRY_ATTEMPTS :=
  fetch_exhausted_surfaces_underlying _ _ _
    (fun _ => ⟨"Unavailable", .UNAVAILABLE, "down"⟩) (fun _ => rfl)
    (fun _ =>
      (by decide :
        (⟨"Unavailable", Status.UNAVAILABLE, "down"⟩ : StatelyError).code
          ∉ NON_RETRYABLE_ERRORS))

/-- C5: a first-attempt failure with a non-retryable code
(unauthenticated, permission-denied, not-found, unimplemented,
invalid-argument) causes exactly 1 attempt, aborts immediately with that
error and performs no backoff wait; if every attempt fails with a
retryable code, the loop performs the full budget of `RETRY_ATTEMPTS`
(10) attempts, surfaces an error, and waits `backoff(attempt, base)`
(with that attempt's jitter sample) between consecutive attempts. -/
theorem fetch_retry_classification (outcomes : Nat → FetchOutcome)
    (jitter : Nat → Rat) (base : Rat) :
    (∀ e0, outcomes 0 = .err e0 → e0.code ∈ NON_RETRYABLE_ERRORS →
       fetch_stately_access_token outcomes jitter base = ⟨.error e0, 1, []⟩) ∧
    (∀ e : Nat → StatelyError, (∀ j, outcomes j = .err (e j)) →
       (∀ j, (e j).code ∉ NON_RETRYABLE_ERRORS) →
       (fetch_stately_access_token outcomes jitter base).attempts = RETRY_ATTEMPTS ∧
       (fetch_stately_access_token outcomes jitter base).result
         = .error (e (RETRY_ATTEMPTS - 1)) ∧
       (fetch_stately_access_token outcomes jitter base).waits
         = (List.range' 0 (RETRY_ATTEMPTS - 1)).map
             (fun j => backoff j base (jitter j))) := by
  constructor
  · intro e0 h0 hc
    have hstep : fetch_stately_access_token outcomes jitter base
        = fetch_loop outcomes jitter base (9 + 1) 0 := rfl
    rw [hstep, fetch_loop_succ, h0]
    simp [hc]
  · intro e hout hretry
    have h := fetch_loop_all_retryable outcomes jitter base e hout hretry
      RETRY_ATTEMPTS 0 (by simp [RETRY_ATTEMPTS]) (by simp)
    simp only [fetch_stately_access_token, h]
    exact ⟨trivial, trivial, trivial⟩

/-- C5 witness: both branches of the classification theorem at concrete
failure sequences. -/
theorem fetch_retry_classification_witness :
    fetch_stately_access_token
        (fun _ => .err ⟨"NotFound", .NOT_FOUND, "nf"⟩) (fun _ => 0) 1
      = ⟨.error ⟨"NotFound", .NOT_FOUND, "nf"⟩, 1, []⟩ ∧
    (fetch_stately_access_token
        (fun _ => .err ⟨"Unknown", .UNKNOWN, "u"⟩) (fun _ => 1) 1).attempts
      = RETRY_ATTEMPTS :=
  ⟨(fetch_retry_classification _ _ _).1 _ rfl (by decide),
   ((fetch_retry_classification _ _ _).2
      (fun _ => ⟨"Unknown", .UNKNOWN, "u"⟩) (fun _ => rfl)
      (fun _ =>
        (by decide :
          (⟨"Unknown", Status.UNKNOWN, "u"⟩ : StatelyError).code
            ∉ NON_RETRYABLE_ERRORS))).1⟩

/-- Helper: the ids handed out by successive `_next_message_id` calls
starting from counter value `s` are `s+1, s+2, ...`. -/
lemma send_ids_eq (n : Nat) : ∀ s, send_ids s n = (List.range n).map (fun k => s + 1 + k) := by
  induction n with
  | zero => intro s; rfl
  | succ m ih =>
    intro s
    have hmap : (fun k => s + 1 + k) ∘ Nat.succ = fun k => s + 1 + 1 + k := by
      funext k; simp [Function.comp]; omega
    simp [send_ids, next_message_id, List.range_succ_eq_map, ih (s + 1),
      List.map_map, hmap]

/-- C2 counterexample: the first message sent on a fresh Transaction
Session (the implicit begin of `__aenter__`) carries message id 2, not
1: `__init__` sets the counter to 1 and `_next_message_id` increments
before returning. -/
theorem begin_message_id_cex :
    sent_message_ids 1 = [2] ∧ (next_message_id init_message_id).1 ≠ 1 := by
  decide

/-- C2 (amended): the implicit begin command sent when the session is
entered carries message id 2, and the n-th message sent on the session
carries message id n+1; the ids are strictly increasing. -/
theorem txn_message_ids (n : Nat) :
    sent_message_ids n = (List.range n).map (fun k => k + 2) ∧
    (sent_message_ids n).Pairwise (· < ·) := by
  have h1 : sent_message_ids n = (List.range n).map (fun k => k + 2) := by
    rw [sent_message_ids, send_ids_eq n init_message_id]
    simp only [init_message_id]
    exact List.map_congr_left fun k _ => by omega
  refine ⟨h1, ?_⟩
  rw [h1]
  exact (List.pairwise_lt_range n).map _ (fun a b h => by omega)

/-- C6 counterexample: when the body of the `async with` block raises
and `_abort` itself then fails, the exception that propagates to the
caller is the abort failure, not the original exception (though the
result is still set to empty/uncommitted). -/
theorem txn_aexit_abort_failure_cex :
    (txn_aexit (some "original error") (.error "abort failed")
        (.ok ⟨[], false⟩)).raised = some "abort failed" ∧
    (txn_aexit (some "original error") (.error "abort failed")
        (.ok ⟨[], false⟩)).raised ≠ some "original error" ∧
    (txn_aexit (some "original error") (.error "abort failed")
        (.ok ⟨[], false⟩)).result = some ⟨[], false⟩ := by
  decide

/-- C6 (amended): if the caller's transaction logic raises, `__aexit__`
invokes abort and sets the result to `{puts: [], committed: false}` even
when abort itself fails; the original exception propagates when abort
succeeds, but when abort itself raises, the abort exception is what
propagates (the original survives only as implicit exception context). -/
theorem txn_aexit_on_error (e : String) (ab : Except String Unit)
    (c : Except String TransactionResult) :
    (txn_aexit (some e) ab c).abort_invoked = true ∧
    (txn_aexit (some e) ab c).result = some ⟨[], false⟩ ∧
    (ab = .ok () → (txn_aexit (some e) ab c).raised = some e) ∧
    (∀ a, ab = .error a → (txn_aexit (some e) ab c).raised = some a) := by
  cases ab with
  | ok u =>
      refine ⟨rfl, rfl, fun _ => rfl, fun a ha => ?_⟩
      exact absurd ha (by simp)
  | error a0 =>
      refine ⟨rfl, rfl, fun h => ?_, fun a ha => ?_⟩
      · exact absurd h (by simp)
      · have : a0 = a := by simpa using ha
        subst this
        rfl

/-- C6 witness: the amended theorem at a concrete failing body with a
succeeding abort. -/
theorem txn_aexit_on_error_witness :
    (txn_aexit (some "boom") (.ok ()) (.ok ⟨[], true⟩)).abort_invoked = true ∧
    (txn_aexit (some "boom") (.ok ()) (.ok ⟨[], true⟩)).result = some ⟨[], false⟩ ∧
    (txn_aexit (some "boom") (.ok ()) (.ok ⟨[], true⟩)).raised = some "boom" :=
  ⟨(txn_aexit_on_error "boom" (.ok ()) (.ok ⟨[], true⟩)).1,
   (txn_aexit_on_error "boom" (.ok ()) (.ok ⟨[], true⟩)).2.1,
   (txn_aexit_on_error "boom" (.ok ()) (.ok ⟨[], true⟩)).2.2.1 rfl⟩

/-- C10: for `get(item_type, key_path)` on the client and inside a
transaction, an empty reply from the store returns `None`, and a
returned item whose type tag differs from the requested `item_type`
raises an error instead of being returned. -/
theorem get_none_or_type_mismatch (items : List StatelyItem) (t : String) :
    (items = [] →
       transaction_get items t = .ok none ∧ client_get items t = .ok none) ∧
    (∀ item rest, items = item :: rest → item.item_type ≠ t →
       (∃ e1, transaction_get items t = .error e1) ∧
       (∃ e2, client_get items t = .error e2)) := by
  constructor
  · rintro rfl
    exact ⟨rfl, rfl⟩
  · rintro item rest rfl hne
    exact ⟨⟨.ValueError "Expected item type did not match the returned item type",
            by simp [transaction_get, hne]⟩,
           ⟨.ValueError "Expected item type did not match the returned item type",
            by simp [client_get, hne]⟩⟩

/-- C10 witness: both branches at concrete store replies. -/
theorem get_none_or_type_mismatch_witness :
    (transaction_get [] "B" = .ok none ∧ client_get [] "B" = .ok none) ∧
    ((∃ e1, transaction_get [⟨"A", "x"⟩] "B" = .error e1) ∧
     (∃ e2, client_get [⟨"A", "x"⟩] "B" = .error e2)) :=
  ⟨(get_none_or_type_mismatch [] "B").1 rfl,
   (get_none_or_type_mismatch [⟨"A", "x"⟩] "B").2 ⟨"A", "x"⟩ [] rfl (by decide)⟩

/-- C7: an awaited response that is missing (stream ended prematurely),
carries a message id different from the request, or whose populated
variant is not the expected kind, always raises a ProtocolError
(`ValueError` in the code) and never returns a value; likewise a
list/sync page with no recognized variant set raises. -/
theorem protocol_error_on_mismatch (resp : Option TransactionResponse)
    (mid : Nat) (f : ResponseField)
    (h : ∀ r, resp = some r →
      r.message_id ≠ mid ∨ r.result.map payload_field ≠ some f) :
    (∃ e1, expect_response resp mid f = .error e1) ∧
    (∀ rest, ∃ e2,
      (handle_sync_response (SyncListResponse.unset :: rest)).error = some e2) := by
  constructor
  · cases resp with
    | none =>
        exact ⟨.ValueError "Expected a response but got None", rfl⟩
    | some r =>
        by_cases hid : r.message_id = mid
        · rcases h r rfl with hid2 | hvar
          · exact absurd hid hid2
          · cases hres : r.result with
            | none =>
                refine ⟨.ValueError "Expected field was not the populated variant", ?_⟩
                simp [expect_response, hid, hres]
            | some p =>
                have hp : payload_field p ≠ f := by
                  intro hc
                  exact hvar (by rw [hres]; simp [hc])
                refine ⟨.ValueError "Expected field was not the populated variant", ?_⟩
                simp [expect_response, hid, hres, hp]
        · refine ⟨.ValueError "Expected message_id did not match the received message_id", ?_⟩
          simp [expect_response, hid]
  · intro rest
    exact ⟨.ValueError "Expected reset, result or finished to be set but all are unset", rfl⟩

/-- C7 witness: a prematurely ended stream (no message) while expecting
the finished variant of message 1. -/
theorem protocol_error_on_mismatch_witness :
    (∃ e1, expect_response none 1 .finished = .error e1) ∧
    (∀ rest, ∃ e2,
      (handle_sync_response (SyncListResponse.unset :: rest)).error = some e2) :=
  protocol_error_on_mismatch none 1 .finished (fun _ hr => Option.noConfusion hr)

/-- Helper: a sequence of result pages followed by a finished page
flushes exactly the pages' events in order and stores the token. -/
lemma handle_sync_result_pages (pages : List SyncListResultPage) (t : ListToken) :
    handle_sync_response
        (pages.map SyncListResponse.result ++ [SyncListResponse.finished t])
      = ⟨(pages.map sync_page_events).flatten, some t, true, none⟩ := by
  induction pages with
  | nil => rfl
  | cons p ps ih => simp [handle_sync_response, ih]

/-- C9: result pages are flushed as one SyncEvent per element in the
order changed, deleted, outside-window within each page; a reset page
yields a single Reset event; the finished page stores its token into the
shared receiver and ends the sequence.  In particular the sequence
`[result (changed [A]), result (deleted [/x]), finished T]` yields
exactly `[Changed A, Deleted /x]` with returned token `T`. -/
theorem sync_pages_flush_order (pages : List SyncListResultPage) (t : ListToken) :
    handle_sync_response
        (pages.map SyncListResponse.result ++ [SyncListResponse.finished t])
      = ⟨(pages.map sync_page_events).flatten, some t, true, none⟩ ∧
    (∀ rest, (handle_sync_response (SyncListResponse.reset :: rest)).events
      = SyncResult.SyncReset :: (handle_sync_response rest).events) ∧
    handle_sync_response
        [SyncListResponse.result ⟨[⟨"ItemA", "a"⟩], [], []⟩,
         SyncListResponse.result ⟨[], ["/x"], []⟩,
         SyncListResponse.finished ⟨"T"⟩]
      = ⟨[SyncResult.SyncChangedItem ⟨"ItemA", "a"⟩, SyncResult.SyncDeletedItem "/x"],
         some ⟨"T"⟩, true, none⟩ := by
  refine ⟨handle_sync_result_pages pages t, fun rest => rfl, ?_⟩
  decide

/-- Helper: every exit of `handle_sync_response` closes the stream:
the finished branch calls `stream.__aexit__` directly, and every raise
is caught by the `except Exception` clause which closes before
re-raising. -/
lemma handle_sync_closes (rs : List SyncListResponse) :
    (handle_sync_response rs).stream_closed = true := by
  induction rs with
  | nil => rfl
  | cons r rest ih => cases r <;> simp [handle_sync_response, ih]

/-- C8: the underlying stream is closed on every exit path of a
list/sync cursor iteration: when the finished message is consumed, when
an error is raised during iteration (both covered by the first
conjunct, since every run closes the stream), and on an early break
before the finished message, which closes the stream without raising
and delivers exactly the events consumed so far. -/
theorem list_stream_closed_on_every_exit :
    (∀ rs, (handle_sync_response rs).stream_closed = true) ∧
    (∀ rs k, k < (handle_sync_response rs).events.length →
       (cursor_consume rs (some k)).stream_closed = true ∧
       (cursor_consume rs (some k)).error = none ∧
       (cursor_consume rs (some k)).events
         = (handle_sync_response rs).events.take k) := by
  refine ⟨handle_sync_closes, fun rs k hk => ?_⟩
  simp [cursor_consume, hk]

/-- C8 witness: a list of 3 items with the caller breaking after 1: the
stream is closed, nothing is raised, and one event was delivered. -/
theorem list_stream_closed_on_every_exit_witness :
    1 < (handle_sync_response
          [SyncListResponse.result ⟨[⟨"E", "a"⟩, ⟨"E", "b"⟩, ⟨"E", "c"⟩], [], []⟩,
           SyncListResponse.finished ⟨"T"⟩]).events.length ∧
    (cursor_consume
        [SyncListResponse.result ⟨[⟨"E", "a"⟩, ⟨"E", "b"⟩, ⟨"E", "c"⟩], [], []⟩,
         SyncListResponse.finished ⟨"T"⟩] (some 1)).stream_closed = true ∧
    (cursor_consume
        [SyncListResponse.result ⟨[⟨"E", "a"⟩, ⟨"E", "b"⟩, ⟨"E", "c"⟩], [], []⟩,
         SyncListResponse.finished ⟨"T"⟩] (some 1)).error = none ∧
    (cursor_consume
        [SyncListResponse.result ⟨[⟨"E", "a"⟩, ⟨"E", "b"⟩, ⟨"E", "c"⟩], [], []⟩,
         SyncListResponse.finished ⟨"T"⟩] (some 1)).events
      = (handle_sync_response
          [SyncListResponse.result ⟨[⟨"E", "a"⟩, ⟨"E", "b"⟩, ⟨"E", "c"⟩], [], []⟩,
           SyncListResponse.finished ⟨"T"⟩]).events.take 1 :=
  ⟨by decide,
   list_stream_closed_on_every_exit.2
     [SyncListResponse.result ⟨[⟨"E", "a"⟩, ⟨"E", "b"⟩, ⟨"E", "c"⟩], [], []⟩,
      SyncListResponse.finished ⟨"T"⟩] 1 (by decide)⟩

/-- Helper: while the cached task slot is occupied and no completion
occurs, further arriving callers only join the cached task; no new task
is created and the slot, counter and results are unchanged. -/
lemma dedupe_arrive_joined (cs : List Nat) :
    ∀ (s : DedupeState) (t : Nat), s.cached = some t →
      (cs.map DedupeEvent.arrive).foldl dedupe_step s
        = { s with joined := s.joined ++ cs.map (fun c => (c, t)) } := by
  induction cs with
  | nil => intro s t _; simp
  | cons c cs ih =>
    intro s t h
    have hstep : dedupe_step s (.arrive c) = { s with joined := s.joined ++ [(c, t)] } := by
      simp [dedupe_step, h]
    simp only [List.map_cons, List.foldl_cons, hstep]
    rw [ih { s with joined := s.joined ++ [(c, t)] } t h]
    simp

/-- C1: for any number of concurrent `getToken()` callers arriving while
no valid token exists (all arrivals precede the completion of the
refresh task), exactly one task — hence one call to the token-fetch
collaborator — is created, and every caller resolves to the same token
value delivered by that task. -/
theorem dedupe_single_fetch (cs : List Nat) (v : String) (h : cs ≠ []) :
    (dedupe_run (cs.map DedupeEvent.arrive ++ [DedupeEvent.complete v])).tasks_created = 1 ∧
    (∀ p ∈ (dedupe_run (cs.map DedupeEvent.arrive ++ [DedupeEvent.complete v])).results,
       p.2 = v) ∧
    (∀ c ∈ cs,
       (c, v) ∈ (dedupe_run (cs.map DedupeEvent.arrive ++ [DedupeEvent.complete v])).results) := by
  match cs, h with
  | c :: cs, _ =>
    have h1 : dedupe_step dedupe_init (.arrive c) = ⟨some 0, 1, [(c, 0)], []⟩ := rfl
    have h2 : (cs.map DedupeEvent.arrive).foldl dedupe_step ⟨some 0, 1, [(c, 0)], []⟩
        = ⟨some 0, 1, (c, 0) :: cs.map (fun x => (x, 0)), []⟩ := by
      rw [dedupe_arrive_joined cs ⟨some 0, 1, [(c, 0)], []⟩ 0 rfl]
      rfl
    have hrun : dedupe_run ((c :: cs).map DedupeEvent.arrive ++ [DedupeEvent.complete v])
        = dedupe_step ((cs.map DedupeEvent.arrive).foldl dedupe_step ⟨some 0, 1, [(c, 0)], []⟩)
            (.complete v) := by
      simp [dedupe_run, List.foldl_append, h1]
    rw [hrun, h2]
    have hres : (dedupe_step
        ⟨some 0, 1, (c, 0) :: cs.map (fun x => (x, 0)), []⟩ (.complete v)).results
        = (c :: cs).map (fun x => (x, v)) := by
      simp [dedupe_step, List.map_map, Function.comp]
    refine ⟨rfl, ?_, ?_⟩
    · intro p hp
      rw [hres] at hp
      rcases List.mem_map.1 hp with ⟨a, _, rfl⟩
      rfl
    · intro c0 hc0
      rw [hres]
      exact List.mem_map.2 ⟨c0, hc0, rfl⟩

/-- C1 witness: three concurrent callers, one completion with token
value tok. -/
theorem dedupe_single_fetch_witness :
    ([0, 1, 2] : List Nat) ≠ [] ∧
    ((dedupe_run ([0, 1, 2].map DedupeEvent.arrive ++ [DedupeEvent.complete "tok"])).tasks_created = 1 ∧
     (∀ p ∈ (dedupe_run ([0, 1, 2].map DedupeEvent.arrive ++ [DedupeEvent.complete "tok"])).results,
        p.2 = "tok") ∧
     (∀ c ∈ ([0, 1, 2] : List Nat),
        (c, "tok") ∈ (dedupe_run ([0, 1, 2].map DedupeEvent.arrive ++ [DedupeEvent.complete "tok"])).results)) :=
  ⟨by decide, dedupe_single_fetch [0, 1, 2] "tok" (by decide)⟩

end StatelySDK
